import Mathlib

/-!
# Verification of `sverchok/nodes/basic_view/viewer_skin.py`

A shallow embedding of the "Skin Viewer Draw" node plugin and of the slice of
the host application's data model (mesh / object / modifier registries) that
the plugin manipulates.  Numeric components are modelled as rationals; the
host registries (`bpy.data.meshes`, `bpy.data.objects`) are association lists
keyed by datablock name; mutation is explicit state passing; host API calls
that can raise are modelled with `Option`.
-/

/-- A modifier on an object (host model: an entry of `obj.modifiers`,
with its `name` and `type`). -/
structure Modifier where
  name : String
  type : String
deriving DecidableEq

/-- A mesh datablock (host model for `bpy.data.meshes` entries): vertex
coordinates, edge index pairs, and the optional skin-vertex layer created by
the Skin modifier, holding a radius pair per vertex. -/
structure MeshData where
  verts : List (ℚ × ℚ × ℚ)
  edges : List (ℕ × ℕ)
  skin : Option (List (ℚ × ℚ))
deriving DecidableEq

/-- An object datablock (host model for `bpy.data.objects` entries):
`data` is the name of the mesh datablock it points to. -/
structure Obj where
  data : String
  modifiers : List Modifier
  matrix_local : List (List ℚ)
deriving DecidableEq

/-- The host state touched by the node: the mesh registry, the object
registry, and the list of object names linked to the scene. -/
structure BState where
  meshes : List (String × MeshData)
  objects : List (String × Obj)
  scene_links : List String
deriving DecidableEq

/-- The node properties of `SkinViewerNode` that `process` reads. -/
structure NodeProps where
  activate : Bool
  basemesh_name : String
  live_updates : Bool
  general_radius : ℚ
deriving DecidableEq

/-- The data sitting on the node's input sockets.  Each data socket carries a
list of lists (the node only ever reads the first element); the radii socket
additionally records whether it is linked. -/
structure Sockets where
  vertices : List (List (ℚ × ℚ × ℚ))
  edges : List (List (ℕ × ℕ))
  matrix : List (List (List ℚ))
  radii_linked : Bool
  radii : List (List ℚ)
deriving DecidableEq

/-- Look up the first entry with the given key in a registry. -/
def alist_find {α : Type} : List (String × α) → String → Option α
  | [], _ => none
  | (k, v) :: rest, key => if k = key then some v else alist_find rest key

/-- Overwrite the value stored at the first entry with the given key
(no-op when the key is absent). -/
def alist_set {α : Type} : List (String × α) → String → α → List (String × α)
  | [], _, _ => []
  | (k, v) :: rest, key, newv =>
    if k = key then (k, newv) :: rest else (k, v) :: alist_set rest key newv

/-- Remove the first entry with the given key from a registry. -/
def alist_remove {α : Type} : List (String × α) → String → List (String × α)
  | [], _ => []
  | (k, v) :: rest, key => if k = key then rest else (k, v) :: alist_remove rest key

/-- The keys of a registry, in order. -/
def alist_keys {α : Type} (l : List (String × α)) : List String := l.map Prod.fst

/-- Whether a registry holds an entry with the given key. -/
def alist_contains {α : Type} (l : List (String × α)) (key : String) : Bool :=
  (alist_keys l).contains key

/-- Host model: Blender's `.001`-style numeric suffix, zero-padded to three
digits. -/
def pad3 (k : ℕ) : String :=
  if k < 10 then "00" ++ toString k
  else if k < 100 then "0" ++ toString k
  else toString k

/-- Host model: search `base.001`, `base.002`, ... for a name not yet used.
The fuel argument bounds the search; callers pass more fuel than there are
used names, so the fuel never actually runs out. -/
def fresh_name_aux (used : List String) (base : String) : ℕ → ℕ → String
  | 0, k => base ++ "." ++ pad3 k
  | fuel + 1, k =>
    let cand := base ++ "." ++ pad3 k
    if used.contains cand then fresh_name_aux used base fuel (k + 1) else cand

/-- Host model: the name a registry's `new(base)` actually assigns — `base`
itself when free, otherwise `base` with a numeric suffix. -/
def registry_fresh_name {α : Type} (l : List (String × α)) (base : String) : String :=
  if alist_contains l base then fresh_name_aux (alist_keys l) base (l.length + 1) 1 else base

/-- Host model: `bpy.data.meshes.new` / `bpy.data.objects.new` — create a
datablock under a collision-free name and return the updated registry and the
name actually used. -/
def registry_new {α : Type} (l : List (String × α)) (base : String) (v : α) :
    List (String × α) × String :=
  let nm := registry_fresh_name l base
  ((nm, v) :: l, nm)

/-- Host model: the name `obj.modifiers.new(name=base)` actually assigns
(modifier names are unique per object). -/
def modifier_fresh_name (mods : List Modifier) (base : String) : String :=
  if (mods.map Modifier.name).contains base then
    fresh_name_aux (mods.map Modifier.name) base (mods.length + 1) 1
  else base

/-- Host model: `obj.modifiers.remove(obj.modifiers[nm])` — drop the first
modifier carrying the given name. -/
def remove_modifier : List Modifier → String → List Modifier
  | [], _ => []
  | m :: rest, nm => if m.name = nm then rest else m :: remove_modifier rest nm

/-- `list(itertools.chain.from_iterable(verts))` for triples. -/
def flatten3 (vs : List (ℚ × ℚ × ℚ)) : List ℚ :=
  vs.flatMap (fun v => [v.1, v.2.1, v.2.2])

/-- Host model: how `foreach_set('co', _)` groups a flat float array back
into coordinate triples. -/
def unflatten3 : List ℚ → List (ℚ × ℚ × ℚ)
  | a :: b :: c :: rest => (a, b, c) :: unflatten3 rest
  | _ => []

/-- `list(itertools.chain.from_iterable(pairs))` / `list(itertools.chain(*zip(l, l)))`. -/
def flatten2 {α : Type} (es : List (α × α)) : List α :=
  es.flatMap (fun e => [e.1, e.2])

/-- Host model: how a `foreach_set` on a two-component attribute groups a flat
array back into pairs. -/
def unflatten2 {α : Type} : List α → List (α × α)
  | a :: b :: rest => (a, b) :: unflatten2 rest
  | _ => []

/-- `force_pydata(mesh, verts, edges)`: `vertices.add` grows the vertex
array, then `foreach_set('co', flat)` overwrites every coordinate — the host
raises (here: `none`) unless the flat array covers the whole attribute;
likewise for edges. -/
def force_pydata (mesh : MeshData) (verts : List (ℚ × ℚ × ℚ)) (edges : List (ℕ × ℕ)) :
    Option MeshData :=
  let vs1 := mesh.verts ++ List.replicate verts.length ((0 : ℚ), (0 : ℚ), (0 : ℚ))
  let f_v := flatten3 verts
  if f_v.length = 3 * vs1.length then
    let es1 := mesh.edges ++ List.replicate edges.length ((0 : ℕ), (0 : ℕ))
    let f_e := flatten2 edges
    if f_e.length = 2 * es1.length then
      some { mesh with verts := unflatten3 f_v, edges := unflatten2 f_e }
    else none
  else none

/-- The coordinate clamp inside `matrix_sanitizer`:
`0.0 if (-1.6e-5 <= c <= 1.6e-5) else c`. -/
def coord_strip (c : ℚ) : ℚ :=
  if -(16 / 1000000) ≤ c ∧ c ≤ 16 / 1000000 then 0 else c

/-- `matrix_sanitizer(matrix)`: clamp every component of every row. -/
def matrix_sanitizer (matrix : List (List ℚ)) : List (List ℚ) :=
  matrix.map (fun v => v.map coord_strip)

/-- `Matrix.Identity(4)` as a row list. -/
def identity4 : List (List ℚ) :=
  [[1, 0, 0, 0], [0, 1, 0, 0], [0, 0, 1, 0], [0, 0, 0, 1]]

/-- A freshly created mesh datablock: no vertices, no edges, no skin layer. -/
def empty_mesh_data : MeshData := { verts := [], edges := [], skin := none }

/-- `assign_empty_mesh()`: return the shared mesh `empty_skin_mesh_sv`,
creating it on first use. -/
def assign_empty_mesh (meshes : List (String × MeshData)) :
    List (String × MeshData) × String :=
  if alist_contains meshes "empty_skin_mesh_sv" then (meshes, "empty_skin_mesh_sv")
  else (("empty_skin_mesh_sv", empty_mesh_data) :: meshes, "empty_skin_mesh_sv")

/-- Host model: the default skin-vertex radius Blender writes when the Skin
modifier creates the skin layer. -/
def skin_default_radius : ℚ := 1 / 4

/-- The `if 'sv_skin' in obj.modifiers:` removal step: drop the `sv_skin`
modifier when present, keep the stack as is otherwise. -/
def mods_strip (mods : List Modifier) : List Modifier :=
  if (mods.map Modifier.name).contains "sv_skin" then remove_modifier mods "sv_skin"
  else mods

/-- The `if node.live_updates:` block of `make_bmesh_geometry`: drop any
existing `sv_skin` modifier, add a fresh `SKIN` modifier, and (host model)
creating the Skin modifier installs the skin-vertex layer on the object's
mesh with default radii. -/
def apply_skin_modifier (node : NodeProps) (meshes : List (String × MeshData))
    (obj : Obj) (mesh1 : MeshData) : List (String × MeshData) × Obj :=
  if node.live_updates then
    let mods1 := mods_strip obj.modifiers
    let mods2 := mods1 ++ [⟨modifier_fresh_name mods1 "sv_skin", "SKIN"⟩]
    let meshes2 := alist_set meshes obj.data
      { mesh1 with
        skin := some (List.replicate mesh1.verts.length
          (skin_default_radius, skin_default_radius)) }
    (meshes2, { obj with modifiers := mods2 })
  else (meshes, obj)

/-- The matrix block at the end of `make_bmesh_geometry`: an empty (falsy)
matrix resets `matrix_local` to the identity, anything else is sanitized
first. -/
def set_matrix_local (obj : Obj) (matrix : List (List ℚ)) : Obj :=
  if matrix.isEmpty then { obj with matrix_local := identity4 }
  else { obj with matrix_local := matrix_sanitizer matrix }

/-- The second half of `make_bmesh_geometry` (from `force_pydata` on), once
the object/mesh pair for `objName` is in place. -/
def finish_geometry (node : NodeProps) (s : BState) (objName : String)
    (verts : List (ℚ × ℚ × ℚ)) (edges : List (ℕ × ℕ)) (matrix : List (List ℚ)) :
    Option BState :=
  match alist_find s.objects objName with
  | none => none
  | some obj =>
    match alist_find s.meshes obj.data with
    | none => none
    | some mesh =>
      match force_pydata mesh verts edges with
      | none => none
      | some mesh1 =>
        let meshes1 := alist_set s.meshes obj.data mesh1
        let p := apply_skin_modifier node meshes1 obj mesh1
        let obj2 := set_matrix_local p.2 matrix
        some { s with meshes := p.1, objects := alist_set s.objects objName obj2 }

/-- The geometry tuple `(verts, edges, matrix)` read from the sockets. -/
abbrev Geometry := (List (ℚ × ℚ × ℚ)) × (List (ℕ × ℕ)) × (List (List ℚ))

/-- The first half of `make_bmesh_geometry` (the `# remove object` block,
source lines 77-93): when the object exists, re-point it at the shared empty
mesh, drop the old mesh datablock of that name, create a fresh one and point
the object at it; otherwise create the mesh, the object, and link the object
into the scene.  Returns the updated state and the registry key of the
object to fill. -/
def make_bmesh_prepare (s : BState) (name : String) : BState × String :=
  match alist_find s.objects name with
  | some obj0 =>
    let p1 := assign_empty_mesh s.meshes
    let obj1 : Obj := { obj0 with data := p1.2 }
    let objects1 := alist_set s.objects name obj1
    let meshes2 := if alist_contains p1.1 name then alist_remove p1.1 name else p1.1
    let p2 := registry_new meshes2 name empty_mesh_data
    let obj2 : Obj := { obj1 with data := p2.2 }
    ({ s with meshes := p2.1, objects := alist_set objects1 name obj2 }, name)
  | none =>
    let p2 := registry_new s.meshes name empty_mesh_data
    let p3 := registry_new s.objects name
      { data := p2.2, modifiers := [], matrix_local := identity4 }
    ({ meshes := p2.1, objects := p3.1, scene_links := s.scene_links ++ [p3.2] }, p3.2)

/-- `make_bmesh_geometry(node, context, name, geometry)`: reuse (rebuilding
the mesh in place) or create the object named `name`, fill it with the given
vertices and edges, toggle the skin modifier, and set its local matrix. -/
def make_bmesh_geometry (node : NodeProps) (s : BState) (name : String)
    (geometry : Geometry) : Option BState :=
  let p := make_bmesh_prepare s name
  finish_geometry node p.1 p.2 geometry.1 geometry.2.1 geometry.2.2

/-- `get_geometry_from_sockets`: take the first element of each socket's
data; the vertex and edge reads raise `IndexError` (here: `none`) on empty
data, the matrix read falls back to the default `[[]]` whose first element is
the empty list. -/
def get_geometry_from_sockets (i : Sockets) : Option Geometry :=
  match i.vertices.head?, i.edges.head? with
  | some mverts, some medges => some (mverts, medges, i.matrix.headD [])
  | _, _ => none

/-- `SkinViewerNode.process`: bail out when not active, build the geometry,
and — only under `live_updates` — assign the skin-vertex radii, silently
skipping the assignment when the radii list length differs from the vertex
count. -/
def process (node : NodeProps) (i : Sockets) (s : BState) : Option BState :=
  if node.activate = false then some s
  else
    match get_geometry_from_sockets i with
    | none => none
    | some geometry =>
      match make_bmesh_geometry node s node.basemesh_name geometry with
      | none => none
      | some s1 =>
        if node.live_updates = false then some s1
        else
          match alist_find s1.objects node.basemesh_name with
          | none => none
          | some obj =>
            match (if i.radii_linked then i.radii.head?
                   else some (List.replicate geometry.1.length node.general_radius)) with
            | none => none
            | some radii =>
              if radii.length = geometry.1.length then
                match alist_find s1.meshes obj.data with
                | none => none
                | some mesh =>
                  match mesh.skin with
                  | none => none
                  | some sk =>
                    let f_r := flatten2 (radii.zip radii)
                    if f_r.length = 2 * sk.length then
                      some { s1 with meshes :=
                        (alist_set s1.meshes obj.data
                          { mesh with skin := some (unflatten2 f_r) }) }
                    else none
              else some s1

/-- Host model: `bpy.utils.register_class` — prepend the class to the host's
class registry, raising (here: `none`) when it is already registered. -/
def register_class (registry : List String) (cls : String) : Option (List String) :=
  if registry.contains cls then none else some (cls :: registry)

/-- Host model: `bpy.utils.unregister_class` — remove the class from the
host's class registry, raising (here: `none`) when it is not registered. -/
def unregister_class (registry : List String) (cls : String) : Option (List String) :=
  if registry.contains cls then some (registry.erase cls) else none

/-- `register()`: registers exactly the `SkinViewerNode` class. -/
def register (registry : List String) : Option (List String) :=
  register_class registry "SkinViewerNode"

/-- `unregister()`: unregisters exactly the `SkinViewerNode` class. -/
def unregister (registry : List String) : Option (List String) :=
  unregister_class registry "SkinViewerNode"

/-- Host invariant: datablock names are unique within each registry. -/
structure WF (s : BState) : Prop where
  mesh_keys : (alist_keys s.meshes).Nodup
  obj_keys : (alist_keys s.objects).Nodup

/-- The modifier stack of the object registered under `name`, or `[]` when
no such object exists yet. -/
def orig_mods (s : BState) (name : String) : List Modifier :=
  match alist_find s.objects name with
  | some o => o.modifiers
  | none => []

/-- How many modifiers in the stack carry the given name. -/
def count_name (mods : List Modifier) (nm : String) : ℕ :=
  (mods.map Modifier.name).count nm

/-! ## Registry lemmas -/

theorem alist_find_cons_self {α : Type} (k : String) (v : α) (l : List (String × α)) :
    alist_find ((k, v) :: l) k = some v := by
  simp [alist_find]

theorem alist_find_set_self {α : Type} {l : List (String × α)} {k : String} {x : α}
    (v : α) (h : alist_find l k = some x) :
    alist_find (alist_set l k v) k = some v := by
  induction l with
  | nil => simp [alist_find] at h
  | cons hd tl ih =>
    obtain ⟨k1, v1⟩ := hd
    by_cases hk : k1 = k
    · subst hk
      simp [alist_find, alist_set]
    · simp only [alist_find, if_neg hk] at h
      simp only [alist_set, if_neg hk, alist_find, if_neg hk]
      exact ih h

theorem alist_keys_set {α : Type} (l : List (String × α)) (k : String) (v : α) :
    alist_keys (alist_set l k v) = alist_keys l := by
  induction l with
  | nil => simp [alist_set]
  | cons hd tl ih =>
    obtain ⟨k1, v1⟩ := hd
    by_cases hk : k1 = k
    · simp [alist_set, hk, alist_keys]
    · simp only [alist_set, if_neg hk, alist_keys, List.map_cons] at ih ⊢
      rw [ih]

theorem alist_set_length {α : Type} (l : List (String × α)) (k : String) (v : α) :
    (alist_set l k v).length = l.length := by
  have h := alist_keys_set l k v
  have h1 : (alist_keys (alist_set l k v)).length = (alist_keys l).length := by rw [h]
  simpa [alist_keys] using h1

theorem alist_contains_iff_mem {α : Type} (l : List (String × α)) (k : String) :
    alist_contains l k = true ↔ k ∈ alist_keys l := by
  unfold alist_contains
  exact List.elem_iff

theorem alist_find_eq_none_iff {α : Type} (l : List (String × α)) (k : String) :
    alist_find l k = none ↔ k ∉ alist_keys l := by
  induction l with
  | nil => simp [alist_find, alist_keys]
  | cons hd tl ih =>
    obtain ⟨k1, v1⟩ := hd
    by_cases hk : k1 = k
    · subst hk
      simp [alist_find, alist_keys]
    · simp only [alist_find, if_neg hk, alist_keys, List.map_cons, List.mem_cons]
      rw [alist_keys] at ih
      rw [ih]
      constructor
      · intro h hmem
        rcases hmem with heq | hmem
        · exact hk heq.symm
        · exact h hmem
      · intro h hmem
        exact h (Or.inr hmem)

theorem alist_contains_eq_false_iff {α : Type} (l : List (String × α)) (k : String) :
    alist_contains l k = false ↔ alist_find l k = none := by
  rw [alist_find_eq_none_iff, ← alist_contains_iff_mem]
  simp

theorem registry_fresh_name_of_find_none {α : Type} {l : List (String × α)} {k : String}
    (h : alist_find l k = none) : registry_fresh_name l k = k := by
  unfold registry_fresh_name
  rw [(alist_contains_eq_false_iff l k).mpr h]
  simp

theorem not_mem_keys_remove {α : Type} {l : List (String × α)} {k : String}
    (h : (alist_keys l).Nodup) : k ∉ alist_keys (alist_remove l k) := by
  induction l with
  | nil => simp [alist_remove, alist_keys]
  | cons hd tl ih =>
    obtain ⟨k1, v1⟩ := hd
    simp only [alist_keys, List.map_cons, List.nodup_cons] at h
    by_cases hk : k1 = k
    · subst hk
      simpa [alist_remove, alist_keys] using h.1
    · simp only [alist_remove, if_neg hk, alist_keys, List.map_cons, List.mem_cons]
      intro hmem
      rcases hmem with heq | hmem
      · exact hk heq.symm
      · exact ih h.2 hmem

theorem not_mem_keys_cond_remove {α : Type} (l : List (String × α)) (k : String)
    (h : (alist_keys l).Nodup) :
    k ∉ alist_keys (if alist_contains l k then alist_remove l k else l) := by
  by_cases hc : alist_contains l k
  · rw [if_pos hc]
    exact not_mem_keys_remove h
  · rw [if_neg hc]
    intro hmem
    exact hc ((alist_contains_iff_mem l k).mpr hmem)

theorem assign_empty_snd (m : List (String × MeshData)) :
    (assign_empty_mesh m).2 = "empty_skin_mesh_sv" := by
  unfold assign_empty_mesh
  split <;> rfl

theorem assign_empty_keys_nodup {m : List (String × MeshData)}
    (h : (alist_keys m).Nodup) : (alist_keys (assign_empty_mesh m).1).Nodup := by
  unfold assign_empty_mesh
  split
  · exact h
  · rename_i hc
    simp only [alist_keys, List.map_cons, List.nodup_cons]
    refine ⟨?_, h⟩
    intro hmem
    exact hc ((alist_contains_iff_mem m _).mpr hmem)

/-! ## Flattening lemmas -/

theorem flatten3_length (vs : List (ℚ × ℚ × ℚ)) : (flatten3 vs).length = 3 * vs.length := by
  induction vs with
  | nil => simp [flatten3]
  | cons v vs ih =>
    simp only [flatten3, List.flatMap_cons, List.length_append, List.length_cons,
      List.length_nil, List.length_cons] at ih ⊢
    omega

theorem unflatten3_flatten3 (vs : List (ℚ × ℚ × ℚ)) : unflatten3 (flatten3 vs) = vs := by
  induction vs with
  | nil => simp [flatten3, unflatten3]
  | cons v vs ih =>
    simp only [flatten3, List.flatMap_cons, List.cons_append, List.nil_append] at ih ⊢
    simp [unflatten3, ih]

theorem flatten2_length {α : Type} (es : List (α × α)) : (flatten2 es).length = 2 * es.length := by
  induction es with
  | nil => simp [flatten2]
  | cons e es ih =>
    simp only [flatten2, List.flatMap_cons, List.length_append, List.length_cons,
      List.length_nil] at ih ⊢
    omega

theorem unflatten2_flatten2 {α : Type} (es : List (α × α)) : unflatten2 (flatten2 es) = es := by
  induction es with
  | nil => simp [flatten2, unflatten2]
  | cons e es ih =>
    simp only [flatten2, List.flatMap_cons, List.cons_append, List.nil_append] at ih ⊢
    simp [unflatten2, ih]

theorem zip_self_eq_map {α : Type} (l : List α) : l.zip l = l.map (fun a => (a, a)) := by
  induction l with
  | nil => simp
  | cons a l ih => simp [ih]

theorem force_pydata_fresh (sk : Option (List (ℚ × ℚ))) (verts : List (ℚ × ℚ × ℚ))
    (edges : List (ℕ × ℕ)) :
    force_pydata ⟨[], [], sk⟩ verts edges = some ⟨verts, edges, sk⟩ := by
  simp [force_pydata, flatten3_length, flatten2_length, unflatten3_flatten3,
    unflatten2_flatten2]

/-! ## Modifier-stack lemmas -/

theorem count_remove_modifier (mods : List Modifier) (nm : String) :
    ((remove_modifier mods nm).map Modifier.name).count nm =
      (mods.map Modifier.name).count nm - 1 := by
  induction mods with
  | nil => simp [remove_modifier]
  | cons m rest ih =>
    by_cases hm : m.name = nm
    · simp [remove_modifier, hm, List.count_cons_self]
    · simp only [remove_modifier, if_neg hm, List.map_cons]
      rw [List.count_cons_of_ne, List.count_cons_of_ne, ih]
      · exact fun he => hm (by simpa using he.symm)
      · exact fun he => hm (by simpa using he.symm)

theorem mem_map_name_iff_count_pos (mods : List Modifier) (nm : String) :
    nm ∈ mods.map Modifier.name ↔ 0 < (mods.map Modifier.name).count nm := by
  exact ⟨fun h => List.count_pos_iff.mpr h, fun h => List.count_pos_iff.mp h⟩

theorem count_name_mods_strip (mods : List Modifier)
    (h : count_name mods "sv_skin" ≤ 1) : count_name (mods_strip mods) "sv_skin" = 0 := by
  unfold count_name mods_strip
  by_cases hc : (mods.map Modifier.name).contains "sv_skin"
  · rw [if_pos hc, count_remove_modifier]
    unfold count_name at h
    omega
  · rw [if_neg hc]
    have : "sv_skin" ∉ mods.map Modifier.name := by
      intro hmem
      exact hc (List.elem_iff.mpr hmem)
    exact List.count_eq_zero.mpr this

theorem contains_eq_false_of_count_zero (mods : List Modifier)
    (h : count_name mods "sv_skin" = 0) :
    ((mods.map Modifier.name).contains "sv_skin") = false := by
  unfold count_name at h
  have : "sv_skin" ∉ mods.map Modifier.name := List.count_eq_zero.mp h
  cases hc : (mods.map Modifier.name).contains "sv_skin"
  · rfl
  · exact absurd (List.elem_iff.mp hc) this

theorem modifier_fresh_name_sv_skin (mods : List Modifier)
    (h : count_name (mods_strip mods) "sv_skin" = 0) :
    modifier_fresh_name (mods_strip mods) "sv_skin" = "sv_skin" := by
  unfold modifier_fresh_name
  rw [contains_eq_false_of_count_zero _ h]
  simp

theorem filter_sv_skin_eq_nil (mods : List Modifier)
    (h : count_name mods "sv_skin" = 0) :
    mods.filter (fun m => m.name == "sv_skin") = [] := by
  unfold count_name at h
  have hnot : "sv_skin" ∉ mods.map Modifier.name := List.count_eq_zero.mp h
  apply List.filter_eq_nil_iff.mpr
  intro m hm
  intro hname
  apply hnot
  have : m.name = "sv_skin" := by simpa using hname
  exact this ▸ List.mem_map_of_mem Modifier.name hm

/-! ## Field-preservation lemmas for the `make_bmesh_geometry` pipeline -/

theorem set_matrix_local_data (o : Obj) (m : List (List ℚ)) :
    (set_matrix_local o m).data = o.data := by
  unfold set_matrix_local
  split <;> rfl

theorem set_matrix_local_modifiers (o : Obj) (m : List (List ℚ)) :
    (set_matrix_local o m).modifiers = o.modifiers := by
  unfold set_matrix_local
  split <;> rfl

theorem set_matrix_local_matrix (o : Obj) (m : List (List ℚ)) :
    (set_matrix_local o m).matrix_local =
      if m.isEmpty then identity4 else matrix_sanitizer m := by
  unfold set_matrix_local
  split <;> simp_all

theorem apply_skin_modifier_data (n : NodeProps) (ms : List (String × MeshData))
    (o : Obj) (m1 : MeshData) : (apply_skin_modifier n ms o m1).2.data = o.data := by
  unfold apply_skin_modifier
  split <;> rfl

theorem apply_skin_modifier_matrix (n : NodeProps) (ms : List (String × MeshData))
    (o : Obj) (m1 : MeshData) :
    (apply_skin_modifier n ms o m1).2.matrix_local = o.matrix_local := by
  unfold apply_skin_modifier
  split <;> rfl

theorem apply_skin_modifier_mods (n : NodeProps) (ms : List (String × MeshData))
    (o : Obj) (m1 : MeshData) :
    (apply_skin_modifier n ms o m1).2.modifiers =
      if n.live_updates then
        mods_strip o.modifiers ++
          [⟨modifier_fresh_name (mods_strip o.modifiers) "sv_skin", "SKIN"⟩]
      else o.modifiers := by
  unfold apply_skin_modifier
  split <;> simp_all

theorem apply_skin_modifier_meshes (n : NodeProps) (ms : List (String × MeshData))
    (o : Obj) (m1 : MeshData) :
    (apply_skin_modifier n ms o m1).1 =
      if n.live_updates then
        alist_set ms o.data
          { m1 with skin := some (List.replicate m1.verts.length
              (skin_default_radius, skin_default_radius)) }
      else ms := by
  unfold apply_skin_modifier
  split <;> simp_all

theorem apply_skin_modifier_keys (n : NodeProps) (ms : List (String × MeshData))
    (o : Obj) (m1 : MeshData) :
    alist_keys (apply_skin_modifier n ms o m1).1 = alist_keys ms := by
  rw [apply_skin_modifier_meshes]
  split
  · rw [alist_keys_set]
  · rfl

/-! ## The geometry pipeline -/

theorem alist_find_registry_new {α : Type} (l : List (String × α)) (base : String) (v : α) :
    alist_find (registry_new l base v).1 (registry_new l base v).2 = some v := by
  unfold registry_new
  exact alist_find_cons_self _ _ _

theorem registry_new_keys {α : Type} (l : List (String × α)) (base : String) (v : α) :
    alist_keys (registry_new l base v).1 = (registry_new l base v).2 :: alist_keys l := by
  unfold registry_new
  rfl

/-- Everything `finish_geometry` guarantees once the object under `objName`
points at a fresh empty mesh datablock. -/
theorem finish_geometry_found (node : NodeProps) (s : BState) (objName : String)
    (verts : List (ℚ × ℚ × ℚ)) (edges : List (ℕ × ℕ)) (matrix : List (List ℚ))
    (obj : Obj) (sk0 : Option (List (ℚ × ℚ)))
    (hobj : alist_find s.objects objName = some obj)
    (hmesh : alist_find s.meshes obj.data = some ⟨[], [], sk0⟩) :
    ∃ s' obj',
      finish_geometry node s objName verts edges matrix = some s'
      ∧ s'.objects = alist_set s.objects objName obj'
      ∧ alist_find s'.objects objName = some obj'
      ∧ obj'.data = obj.data
      ∧ alist_find s'.meshes obj.data =
          some ⟨verts, edges,
            if node.live_updates then
              some (List.replicate verts.length (skin_default_radius, skin_default_radius))
            else sk0⟩
      ∧ obj'.matrix_local = (if matrix.isEmpty then identity4 else matrix_sanitizer matrix)
      ∧ obj'.modifiers =
          (if node.live_updates then
            mods_strip obj.modifiers ++
              [⟨modifier_fresh_name (mods_strip obj.modifiers) "sv_skin", "SKIN"⟩]
          else obj.modifiers)
      ∧ alist_keys s'.meshes = alist_keys s.meshes
      ∧ s'.scene_links = s.scene_links := by
  simp only [finish_geometry, hobj, hmesh, force_pydata_fresh]
  refine ⟨_, _, rfl, rfl, ?_, ?_, ?_, ?_, ?_, ?_, ?_⟩
  · exact alist_find_set_self _ hobj
  · rw [set_matrix_local_data, apply_skin_modifier_data]
  · rw [apply_skin_modifier_meshes]
    by_cases hl : node.live_updates
    · rw [if_pos hl, if_pos hl]
      exact alist_find_set_self _ (alist_find_set_self _ hmesh)
    · rw [if_neg hl, if_neg hl]
      exact alist_find_set_self _ hmesh
  · rw [set_matrix_local_matrix]
  · rw [set_matrix_local_modifiers, apply_skin_modifier_mods]
  · rw [apply_skin_modifier_keys, alist_keys_set]
  · rfl

/-- After `make_bmesh_prepare`, the object sits under the returned key and
points at a fresh empty mesh; its modifier stack and local matrix are those
of the pre-existing object (or empty / identity on first creation). -/
theorem make_bmesh_prepare_spec (s : BState) (name : String) :
    ∃ obj,
      alist_find (make_bmesh_prepare s name).1.objects (make_bmesh_prepare s name).2 =
        some obj
      ∧ alist_find (make_bmesh_prepare s name).1.meshes obj.data = some empty_mesh_data
      ∧ obj.modifiers = orig_mods s name := by
  cases hfind : alist_find s.objects name with
  | some obj0 =>
    simp only [make_bmesh_prepare, hfind]
    refine ⟨_, alist_find_set_self _ (alist_find_set_self _ hfind), ?_, ?_⟩
    · simpa using alist_find_registry_new _ name empty_mesh_data
    · simp [orig_mods, hfind]
  | none =>
    simp only [make_bmesh_prepare, hfind]
    refine ⟨_, alist_find_registry_new _ name _, ?_, ?_⟩
    · simpa using alist_find_registry_new _ name empty_mesh_data
    · simp [orig_mods, hfind]

theorem make_bmesh_prepare_snd (s : BState) (name : String) :
    (make_bmesh_prepare s name).2 = name := by
  cases hfind : alist_find s.objects name with
  | some obj0 => simp [make_bmesh_prepare, hfind]
  | none =>
    simp only [make_bmesh_prepare, hfind, registry_new]
    exact registry_fresh_name_of_find_none hfind

/-- Everything `make_bmesh_geometry` guarantees, for an arbitrary pre-state:
it succeeds, and afterwards the object under `name` holds exactly the given
vertex and edge lists, the expected skin layer, local matrix, and modifier
stack. -/
theorem make_bmesh_spec (node : NodeProps) (s : BState) (name : String) (g : Geometry) :
    ∃ s' obj',
      make_bmesh_geometry node s name g = some s'
      ∧ alist_find s'.objects name = some obj'
      ∧ alist_find s'.meshes obj'.data =
          some ⟨g.1, g.2.1,
            if node.live_updates then
              some (List.replicate g.1.length (skin_default_radius, skin_default_radius))
            else none⟩
      ∧ obj'.matrix_local = (if g.2.2.isEmpty then identity4 else matrix_sanitizer g.2.2)
      ∧ obj'.modifiers =
          (if node.live_updates then
            mods_strip (orig_mods s name) ++
              [⟨modifier_fresh_name (mods_strip (orig_mods s name)) "sv_skin", "SKIN"⟩]
          else orig_mods s name) := by
  obtain ⟨obj, hfo, hfm, hmods⟩ := make_bmesh_prepare_spec s name
  obtain ⟨s', obj', h1, h2, h3, h4, h5, h6, h7, h8, h9⟩ :=
    finish_geometry_found node (make_bmesh_prepare s name).1 (make_bmesh_prepare s name).2
      g.1 g.2.1 g.2.2 obj none hfo hfm
  refine ⟨s', obj', ?_, ?_, ?_, h6, ?_⟩
  · simpa only [make_bmesh_geometry] using h1
  · rw [← make_bmesh_prepare_snd s name]
    exact h3
  · rw [h4]
    exact h5
  · rw [h7, hmods]

theorem cond_remove_find_none {α : Type} (l : List (String × α)) (k : String)
    (h : (alist_keys l).Nodup) :
    alist_find (if alist_contains l k then alist_remove l k else l) k = none :=
  (alist_find_eq_none_iff _ k).mpr (not_mem_keys_cond_remove l k h)

/-- When the object already exists (and mesh names are unique), the prepare
stage reuses it: the object count is unchanged, the object points at a fresh
mesh registered under exactly `name`, and `name` keys exactly one mesh. -/
theorem make_bmesh_prepare_some (s : BState) (name : String) (obj0 : Obj)
    (hfind : alist_find s.objects name = some obj0)
    (hnd : (alist_keys s.meshes).Nodup) :
    ∃ obj,
      alist_find (make_bmesh_prepare s name).1.objects name = some obj
      ∧ obj.data = name
      ∧ alist_find (make_bmesh_prepare s name).1.meshes name = some empty_mesh_data
      ∧ (make_bmesh_prepare s name).1.objects.length = s.objects.length
      ∧ (alist_keys (make_bmesh_prepare s name).1.meshes).count name = 1 := by
  have hkeys1 : (alist_keys (assign_empty_mesh s.meshes).1).Nodup :=
    assign_empty_keys_nodup hnd
  have hfindnone : alist_find
      (if alist_contains (assign_empty_mesh s.meshes).1 name then
        alist_remove (assign_empty_mesh s.meshes).1 name
      else (assign_empty_mesh s.meshes).1) name = none :=
    cond_remove_find_none _ name hkeys1
  have hnotmem : name ∉ alist_keys
      (if alist_contains (assign_empty_mesh s.meshes).1 name then
        alist_remove (assign_empty_mesh s.meshes).1 name
      else (assign_empty_mesh s.meshes).1) :=
    not_mem_keys_cond_remove _ name hkeys1
  have hfresh := registry_fresh_name_of_find_none hfindnone
  simp only [make_bmesh_prepare, hfind]
  refine ⟨_, alist_find_set_self _ (alist_find_set_self _ hfind), ?_, ?_, ?_, ?_⟩
  · simp only [registry_new, hfresh]
  · simp only [registry_new, hfresh]
    exact alist_find_cons_self _ _ _
  · rw [alist_set_length, alist_set_length]
  · rw [registry_new_keys]
    simp only [registry_new, hfresh]
    rw [List.count_cons_self]
    have : (alist_keys (if alist_contains (assign_empty_mesh s.meshes).1 name then
          alist_remove (assign_empty_mesh s.meshes).1 name
        else (assign_empty_mesh s.meshes).1)).count name = 0 :=
      List.count_eq_zero.mpr hnotmem
    omega

/-! ## `process` lemmas -/

theorem get_geometry_of_heads (i : Sockets) (mverts : List (ℚ × ℚ × ℚ))
    (medges : List (ℕ × ℕ)) (hv : i.vertices.head? = some mverts)
    (he : i.edges.head? = some medges) :
    get_geometry_from_sockets i = some (mverts, medges, i.matrix.headD []) := by
  simp [get_geometry_from_sockets, hv, he]

/-- `process` with `activate` on and `live_updates` off is exactly the
geometry build: the radii block never runs. -/
theorem process_nonlive (node : NodeProps) (i : Sockets) (s : BState)
    (mverts : List (ℚ × ℚ × ℚ)) (medges : List (ℕ × ℕ))
    (hact : node.activate = true) (hlive : node.live_updates = false)
    (hv : i.vertices.head? = some mverts) (he : i.edges.head? = some medges) :
    process node i s =
      make_bmesh_geometry node s node.basemesh_name (mverts, medges, i.matrix.headD []) := by
  have hgeom := get_geometry_of_heads i mverts medges hv he
  cases hmk : make_bmesh_geometry node s node.basemesh_name (mverts, medges, i.matrix.headD []) with
  | none =>
    simp only [List.headD_eq_head?_getD] at hmk
    simp [process, hact, hgeom, hmk]
  | some s1 =>
    simp only [List.headD_eq_head?_getD] at hmk
    simp [process, hact, hgeom, hmk, hlive]

/-- `process` with `activate` and `live_updates` on: the geometry build
succeeds and leaves a fresh skin layer with default radii; the radii block
then either overwrites the layer (matching lengths) or silently leaves the
state of the build untouched (mismatched lengths). -/
theorem process_live (node : NodeProps) (i : Sockets) (s : BState)
    (mverts : List (ℚ × ℚ × ℚ)) (medges : List (ℕ × ℕ)) (radii : List ℚ)
    (hact : node.activate = true) (hlive : node.live_updates = true)
    (hv : i.vertices.head? = some mverts) (he : i.edges.head? = some medges)
    (hr : (if i.radii_linked then i.radii.head?
           else some (List.replicate mverts.length node.general_radius)) = some radii) :
    ∃ s1 obj',
      make_bmesh_geometry node s node.basemesh_name (mverts, medges, i.matrix.headD [])
        = some s1
      ∧ alist_find s1.objects node.basemesh_name = some obj'
      ∧ alist_find s1.meshes obj'.data =
          some ⟨mverts, medges,
            some (List.replicate mverts.length (skin_default_radius, skin_default_radius))⟩
      ∧ obj'.modifiers =
          mods_strip (orig_mods s node.basemesh_name) ++
            [⟨modifier_fresh_name (mods_strip (orig_mods s node.basemesh_name)) "sv_skin",
              "SKIN"⟩]
      ∧ (radii.length = mverts.length →
          process node i s = some { s1 with meshes :=
            (alist_set s1.meshes obj'.data
              ⟨mverts, medges, some (radii.map (fun r => (r, r)))⟩) })
      ∧ (radii.length ≠ mverts.length → process node i s = some s1) := by
  have hgeom := get_geometry_of_heads i mverts medges hv he
  obtain ⟨s1, obj', h1, h2, h3, h4, h5⟩ :=
    make_bmesh_spec node s node.basemesh_name (mverts, medges, i.matrix.headD [])
  rw [hlive, if_pos rfl] at h3 h5
  have h1' := h1
  have hgeom' := hgeom
  simp only [List.headD_eq_head?_getD] at h1' hgeom'
  refine ⟨s1, obj', h1, h2, by simpa using h3, by simpa using h5, ?_, ?_⟩
  · intro hlen
    simp only [process, hact, hgeom', h1', hlive, h2, hr]
    simp only [h3]
    simp [hlen, flatten2_length, zip_self_eq_map, unflatten2_flatten2]
  · intro hlen
    simp only [process, hact, hgeom', h1', hlive, h2, hr]
    simp [hlen]

/-! ## Claim theorems -/

theorem getD_map_list {α β : Type} (f : α → β) (d : α) (l : List α) (n : ℕ) :
    (l.map f).getD n (f d) = f (l.getD n d) := by
  induction l generalizing n with
  | nil => simp
  | cons a l ih =>
    cases n with
    | zero => simp
    | succ n => simp [ih n]

theorem coord_strip_zero : coord_strip 0 = 0 := by
  unfold coord_strip
  norm_num

theorem matrix_sanitizer_getD (m : List (List ℚ)) (i j : ℕ) :
    ((matrix_sanitizer m).getD i []).getD j 0 = coord_strip ((m.getD i []).getD j 0) := by
  have hrow : (matrix_sanitizer m).getD i [] = (m.getD i []).map coord_strip := by
    have h := getD_map_list (List.map coord_strip) [] m i
    simpa [matrix_sanitizer] using h
  rw [hrow]
  have h2 := getD_map_list coord_strip 0 (m.getD i []) j
  rwa [coord_strip_zero] at h2

/-- C3: `matrix_sanitizer` returns a matrix of the same shape in which every
component `c` with `-1.6e-5 <= c <= 1.6e-5` is replaced by `0.0` and every
component outside that range is unchanged. -/
theorem C3_matrix_sanitizer_componentwise (m : List (List ℚ)) :
    (matrix_sanitizer m).length = m.length
    ∧ ∀ i : ℕ,
      ((matrix_sanitizer m).getD i []).length = (m.getD i []).length
      ∧ ∀ j : ℕ,
        ((-(16 / 1000000) ≤ (m.getD i []).getD j 0 ∧ (m.getD i []).getD j 0 ≤ 16 / 1000000) →
          ((matrix_sanitizer m).getD i []).getD j 0 = 0)
        ∧ (¬(-(16 / 1000000) ≤ (m.getD i []).getD j 0 ∧ (m.getD i []).getD j 0 ≤ 16 / 1000000) →
          ((matrix_sanitizer m).getD i []).getD j 0 = (m.getD i []).getD j 0) := by
  refine ⟨by simp [matrix_sanitizer], fun i => ⟨?_, fun j => ⟨?_, ?_⟩⟩⟩
  · have hrow : (matrix_sanitizer m).getD i [] = (m.getD i []).map coord_strip := by
      have h := getD_map_list (List.map coord_strip) [] m i
      simpa [matrix_sanitizer] using h
    rw [hrow, List.length_map]
  · intro hcond
    rw [matrix_sanitizer_getD]
    unfold coord_strip
    rw [if_pos hcond]
  · intro hcond
    rw [matrix_sanitizer_getD]
    unfold coord_strip
    rw [if_neg hcond]

/-- C6: `process` is deterministic — two runs from identical node properties,
socket data, and host state produce identical results. -/
theorem C6_process_deterministic (n1 n2 : NodeProps) (i1 i2 : Sockets) (s1 s2 : BState)
    (hn : n1 = n2) (hi : i1 = i2) (hs : s1 = s2) :
    process n1 i1 s1 = process n2 i2 s2 := by
  subst hn
  subst hi
  subst hs
  rfl

/-- C7: `register()` registers exactly `SkinViewerNode` and `unregister()`
removes it again, so a register/unregister round trip restores the host's
class registry. -/
theorem C7_register_roundtrip (registry r1 : List String)
    (h : register registry = some r1) : unregister r1 = some registry := by
  unfold register register_class at h
  by_cases hc : registry.contains "SkinViewerNode"
  · rw [if_pos hc] at h
    cases h
  · rw [if_neg hc] at h
    cases h
    unfold unregister unregister_class
    simp

/-- C8: with `activate == False`, `process` returns immediately and the host
state is completely unchanged. -/
theorem C8_inactive_noop (node : NodeProps) (i : Sockets) (s : BState)
    (h : node.activate = false) : process node i s = some s := by
  simp [process, h]

/-- C10: an empty (falsy) matrix component resets `matrix_local` to the 4x4
identity; a non-empty one sets `matrix_local` to the sanitized matrix, never
the raw input. -/
theorem C10_matrix_local (node : NodeProps) (s : BState) (name : String) (g : Geometry) :
    ∃ s' obj',
      make_bmesh_geometry node s name g = some s'
      ∧ alist_find s'.objects name = some obj'
      ∧ (g.2.2 = [] → obj'.matrix_local = identity4)
      ∧ (g.2.2 ≠ [] → obj'.matrix_local = matrix_sanitizer g.2.2) := by
  obtain ⟨s', obj', h1, h2, h3, h4, h5⟩ := make_bmesh_spec node s name g
  refine ⟨s', obj', h1, h2, ?_, ?_⟩
  · intro hemp
    rw [h4]
    simp [hemp]
  · intro hne
    rw [h4, if_neg]
    exact fun hh => hne (List.isEmpty_iff.mp hh)

/-- C5: under `live_updates`, `make_bmesh_geometry` removes any existing
`sv_skin` modifier and adds a fresh `SKIN` one, leaving exactly one `sv_skin`
modifier; without `live_updates` the modifier stack is untouched. -/
theorem C5_modifier_toggle (node : NodeProps) (s : BState) (name : String) (g : Geometry)
    (obj0 : Obj) (hobj : alist_find s.objects name = some obj0)
    (hcount : count_name obj0.modifiers "sv_skin" ≤ 1) :
    ∃ s' obj',
      make_bmesh_geometry node s name g = some s'
      ∧ alist_find s'.objects name = some obj'
      ∧ (node.live_updates = true →
          obj'.modifiers.filter (fun m => m.name == "sv_skin") = [⟨"sv_skin", "SKIN"⟩])
      ∧ (node.live_updates = false → obj'.modifiers = obj0.modifiers) := by
  obtain ⟨s', obj', h1, h2, h3, h4, h5⟩ := make_bmesh_spec node s name g
  have horig : orig_mods s name = obj0.modifiers := by simp [orig_mods, hobj]
  rw [horig] at h5
  refine ⟨s', obj', h1, h2, ?_, ?_⟩
  · intro hl
    rw [hl, if_pos rfl] at h5
    have hstrip0 : count_name (mods_strip obj0.modifiers) "sv_skin" = 0 :=
      count_name_mods_strip _ hcount
    rw [h5, List.filter_append, filter_sv_skin_eq_nil _ hstrip0,
      modifier_fresh_name_sv_skin _ hstrip0]
    simp
  · intro hl
    rw [hl] at h5
    simpa using h5

/-- C4: when an object of the given name already exists, `make_bmesh_geometry`
reuses it — no second object appears, the object ends up pointing at a mesh
registered under exactly that name holding the new geometry, and that name
keys exactly one mesh datablock (no orphan remains). -/
theorem C4_object_reuse (node : NodeProps) (s : BState) (name : String) (g : Geometry)
    (obj0 : Obj) (hwf : WF s) (hobj : alist_find s.objects name = some obj0) :
    ∃ s' obj',
      make_bmesh_geometry node s name g = some s'
      ∧ s'.objects.length = s.objects.length
      ∧ alist_find s'.objects name = some obj'
      ∧ obj'.data = name
      ∧ (alist_keys s'.meshes).count name = 1
      ∧ alist_find s'.meshes name =
          some ⟨g.1, g.2.1,
            if node.live_updates then
              some (List.replicate g.1.length (skin_default_radius, skin_default_radius))
            else none⟩ := by
  obtain ⟨obj, hfo, hdata, hfm, hlen, hcount⟩ :=
    make_bmesh_prepare_some s name obj0 hobj hwf.mesh_keys
  obtain ⟨s', obj', h1, h2, h3, h4, h5, h6, h7, h8, h9⟩ :=
    finish_geometry_found node (make_bmesh_prepare s name).1 name g.1 g.2.1 g.2.2 obj none
      hfo (by rw [hdata]; exact hfm)
  refine ⟨s', obj', ?_, ?_, h3, ?_, ?_, ?_⟩
  · simp only [make_bmesh_geometry]
    rw [make_bmesh_prepare_snd s name]
    exact h1
  · rw [h2, alist_set_length]
    exact hlen
  · rw [h4, hdata]
  · rw [h8]
    exact hcount
  · rw [hdata] at h5
    exact h5

/-- C2: with the radii socket linked, a radii list whose length differs from
the vertex list leaves the skin-vertex radii as the creation defaults — the
update is silently skipped and `process` still succeeds; with matching
lengths every skin vertex gets both radius components set to the
corresponding radii element. -/
theorem C2_radii_length_guard (node : NodeProps) (i : Sockets) (s : BState)
    (mverts : List (ℚ × ℚ × ℚ)) (medges : List (ℕ × ℕ)) (rl : List ℚ)
    (hact : node.activate = true) (hlive : node.live_updates = true)
    (hlink : i.radii_linked = true)
    (hv : i.vertices.head? = some mverts) (he : i.edges.head? = some medges)
    (hr : i.radii.head? = some rl) :
    (rl.length ≠ mverts.length →
      ∃ s1 obj',
        process node i s = some s1
        ∧ make_bmesh_geometry node s node.basemesh_name (mverts, medges, i.matrix.headD [])
            = some s1
        ∧ alist_find s1.objects node.basemesh_name = some obj'
        ∧ alist_find s1.meshes obj'.data =
            some ⟨mverts, medges,
              some (List.replicate mverts.length (skin_default_radius, skin_default_radius))⟩)
    ∧ (rl.length = mverts.length →
      ∃ s' obj',
        process node i s = some s'
        ∧ alist_find s'.objects node.basemesh_name = some obj'
        ∧ alist_find s'.meshes obj'.data =
            some ⟨mverts, medges, some (rl.map (fun r => (r, r)))⟩) := by
  have hr' : (if i.radii_linked then i.radii.head?
      else some (List.replicate mverts.length node.general_radius)) = some rl := by
    rw [hlink, if_pos rfl]
    exact hr
  obtain ⟨s1, obj', h1, h2, h3, h4, hmatch, hmismatch⟩ :=
    process_live node i s mverts medges rl hact hlive hv he hr'
  constructor
  · intro hlen
    exact ⟨s1, obj', hmismatch hlen, h1, h2, h3⟩
  · intro hlen
    exact ⟨_, obj', hmatch hlen, h2, alist_find_set_self _ h3⟩

/-- C9: with the radii socket unlinked and `live_updates` on, the radii list
is the node's `general_radius` repeated `len(verts)` times, so the
length-mismatch skip is unreachable and the skin radii are always assigned. -/
theorem C9_unlinked_radii (node : NodeProps) (i : Sockets) (s : BState)
    (mverts : List (ℚ × ℚ × ℚ)) (medges : List (ℕ × ℕ))
    (hact : node.activate = true) (hlive : node.live_updates = true)
    (hlink : i.radii_linked = false)
    (hv : i.vertices.head? = some mverts) (he : i.edges.head? = some medges) :
    (List.replicate mverts.length node.general_radius).length = mverts.length
    ∧ ∃ s' obj',
        process node i s = some s'
        ∧ alist_find s'.objects node.basemesh_name = some obj'
        ∧ alist_find s'.meshes obj'.data =
            some ⟨mverts, medges,
              some (List.replicate mverts.length
                (node.general_radius, node.general_radius))⟩ := by
  have hr' : (if i.radii_linked then i.radii.head?
      else some (List.replicate mverts.length node.general_radius)) =
      some (List.replicate mverts.length node.general_radius) := by
    rw [hlink]
    simp
  obtain ⟨s1, obj', h1, h2, h3, h4, hmatch, hmismatch⟩ :=
    process_live node i s mverts medges (List.replicate mverts.length node.general_radius)
      hact hlive hv he hr'
  have hlen : (List.replicate mverts.length node.general_radius).length = mverts.length :=
    List.length_replicate _ _
  refine ⟨hlen, _, obj', hmatch hlen, h2, ?_⟩
  have hfind2 := alist_find_set_self
    (⟨mverts, medges,
      some ((List.replicate mverts.length node.general_radius).map (fun r => (r, r)))⟩ :
      MeshData) h3
  simpa [List.map_replicate] using hfind2

/-- C1 (amended): on an activated node whose `process` call completes, the
object named `basemesh_name` exists and its mesh holds exactly the first
vertex and edge lists from the sockets; the `sv_skin` SKIN modifier is
guaranteed only when `live_updates` is on. -/
theorem C1_amended (node : NodeProps) (i : Sockets) (s : BState)
    (mverts : List (ℚ × ℚ × ℚ)) (medges : List (ℕ × ℕ)) (s' : BState)
    (hact : node.activate = true)
    (hv : i.vertices.head? = some mverts) (he : i.edges.head? = some medges)
    (hcount : count_name (orig_mods s node.basemesh_name) "sv_skin" ≤ 1)
    (hs' : process node i s = some s') :
    ∃ obj' mesh',
      alist_find s'.objects node.basemesh_name = some obj'
      ∧ alist_find s'.meshes obj'.data = some mesh'
      ∧ mesh'.verts = mverts
      ∧ mesh'.edges = medges
      ∧ (node.live_updates = true → Modifier.mk "sv_skin" "SKIN" ∈ obj'.modifiers) := by
  cases hlive : node.live_updates with
  | false =>
    have hproc := process_nonlive node i s mverts medges hact hlive hv he
    obtain ⟨s1, obj', h1, h2, h3, h4, h5⟩ :=
      make_bmesh_spec node s node.basemesh_name (mverts, medges, i.matrix.headD [])
    rw [hproc, h1] at hs'
    obtain rfl : s1 = s' := Option.some.inj hs'
    rw [hlive] at h3
    refine ⟨obj', ⟨mverts, medges, none⟩, h2, ?_, rfl, rfl, ?_⟩
    · simpa using h3
    · intro hl
      exact Bool.noConfusion hl
  | true =>
    cases hropt : (if i.radii_linked then i.radii.head?
        else some (List.replicate mverts.length node.general_radius)) with
    | none =>
      exfalso
      obtain ⟨s1, obj1, h1, h2, h3, h4, h5⟩ :=
        make_bmesh_spec node s node.basemesh_name (mverts, medges, i.matrix.headD [])
      have hgeom := get_geometry_of_heads i mverts medges hv he
      simp only [List.headD_eq_head?_getD] at h1 hgeom
      simp only [process, hact, hgeom, h1, hlive, h2, hropt] at hs'
      exact Option.noConfusion hs'
    | some radii =>
      obtain ⟨s1, obj', h1, h2, h3, h4, hmatch, hmismatch⟩ :=
        process_live node i s mverts medges radii hact hlive hv he hropt
      have hname : modifier_fresh_name (mods_strip (orig_mods s node.basemesh_name))
          "sv_skin" = "sv_skin" :=
        modifier_fresh_name_sv_skin _ (count_name_mods_strip _ hcount)
      have hmem : Modifier.mk "sv_skin" "SKIN" ∈ obj'.modifiers := by
        rw [h4, hname]
        exact List.mem_append_right _ (by simp)
      by_cases hlen : radii.length = mverts.length
      · have hp := hmatch hlen
        rw [hp] at hs'
        obtain rfl := Option.some.inj hs'
        exact ⟨obj', ⟨mverts, medges, some (radii.map (fun r => (r, r)))⟩,
          h2, alist_find_set_self _ h3, rfl, rfl, fun _ => hmem⟩
      · have hp := hmismatch hlen
        rw [hp] at hs'
        obtain rfl := Option.some.inj hs'
        exact ⟨obj',
          ⟨mverts, medges,
            some (List.replicate mverts.length (skin_default_radius, skin_default_radius))⟩,
          h2, h3, rfl, rfl, fun _ => hmem⟩

/-! ## Concrete sample inputs -/

/-- Sample first vertex list: two vertices. -/
def verts_A : List (ℚ × ℚ × ℚ) := [(0, 0, 0), (1, 0, 0)]

/-- Sample first edge list: one edge. -/
def edges_A : List (ℕ × ℕ) := [(0, 1)]

/-- A node with factory defaults except `activate`: showing on, live modifier
off (the property's default), base name `Alpha`. -/
def node_A : NodeProps :=
  { activate := true, basemesh_name := "Alpha", live_updates := false,
    general_radius := 1 / 4 }

/-- `node_A` with the live modifier enabled. -/
def node_live : NodeProps := { node_A with live_updates := true }

/-- `node_A` switched off. -/
def node_off : NodeProps := { node_A with activate := false }

/-- Sockets carrying one vertex list and one edge list, no matrix, radii
socket unlinked. -/
def sockets_A : Sockets :=
  { vertices := [verts_A], edges := [edges_A], matrix := [],
    radii_linked := false, radii := [] }

/-- `sockets_A` with the radii socket linked to a one-element radii list
(shorter than the two-vertex list). -/
def sockets_link_bad : Sockets :=
  { sockets_A with radii_linked := true, radii := [[3]] }

/-- `sockets_A` with the radii socket linked to a matching two-element
radii list. -/
def sockets_link_good : Sockets :=
  { sockets_A with radii_linked := true, radii := [[3, 5]] }

/-- An empty host state. -/
def state0 : BState := { meshes := [], objects := [], scene_links := [] }

/-- The object `process` builds from `sockets_A` in an empty state. -/
def c1_obj : Obj := { data := "Alpha", modifiers := [], matrix_local := identity4 }

/-- The full host state `process node_A sockets_A state0` produces. -/
def c1_final : BState :=
  { meshes := [("Alpha", ⟨verts_A, edges_A, none⟩)],
    objects := [("Alpha", c1_obj)],
    scene_links := ["Alpha"] }

/-- A host state already holding an object `Alpha` with its mesh. -/
def state_B : BState :=
  { meshes := [("Alpha", ⟨[(0, 0, 0)], [], none⟩)],
    objects := [("Alpha", c1_obj)],
    scene_links := ["Alpha"] }

/-- C1 counterexample: with `activate` on but `live_updates` at its default
`False`, `process` creates the object and its mesh but attaches no modifier
at all — the claimed `sv_skin` skin modifier is absent. -/
theorem C1_counterexample :
    process node_A sockets_A state0 = some c1_final
    ∧ alist_find c1_final.objects node_A.basemesh_name = some c1_obj
    ∧ c1_obj.modifiers.any (fun m => m.name == "sv_skin" && m.type == "SKIN") = false := by
  decide

/-! ## Witnesses -/

theorem C1_amended_witness :
    node_A.activate = true
    ∧ sockets_A.vertices.head? = some verts_A
    ∧ sockets_A.edges.head? = some edges_A
    ∧ count_name (orig_mods state0 node_A.basemesh_name) "sv_skin" ≤ 1
    ∧ process node_A sockets_A state0 = some c1_final
    ∧ ∃ obj' mesh',
        alist_find c1_final.objects node_A.basemesh_name = some obj'
        ∧ alist_find c1_final.meshes obj'.data = some mesh'
        ∧ mesh'.verts = verts_A
        ∧ mesh'.edges = edges_A
        ∧ (node_A.live_updates = true → Modifier.mk "sv_skin" "SKIN" ∈ obj'.modifiers) :=
  ⟨by decide, by decide, by decide, by decide, by decide,
    C1_amended node_A sockets_A state0 verts_A edges_A c1_final (by decide) (by decide)
      (by decide) (by decide) (by decide)⟩

theorem C2_witness :
    node_live.activate = true
    ∧ node_live.live_updates = true
    ∧ sockets_link_bad.radii_linked = true
    ∧ sockets_link_bad.vertices.head? = some verts_A
    ∧ sockets_link_bad.edges.head? = some edges_A
    ∧ sockets_link_bad.radii.head? = some [3]
    ∧ ((([3] : List ℚ).length ≠ verts_A.length →
        ∃ s1 obj',
          process node_live sockets_link_bad state0 = some s1
          ∧ make_bmesh_geometry node_live state0 node_live.basemesh_name
              (verts_A, edges_A, sockets_link_bad.matrix.headD []) = some s1
          ∧ alist_find s1.objects node_live.basemesh_name = some obj'
          ∧ alist_find s1.meshes obj'.data =
              some ⟨verts_A, edges_A,
                some (List.replicate verts_A.length
                  (skin_default_radius, skin_default_radius))⟩)
      ∧ (([3] : List ℚ).length = verts_A.length →
        ∃ s' obj',
          process node_live sockets_link_bad state0 = some s'
          ∧ alist_find s'.objects node_live.basemesh_name = some obj'
          ∧ alist_find s'.meshes obj'.data =
              some ⟨verts_A, edges_A, some (([3] : List ℚ).map (fun r => (r, r)))⟩)) :=
  ⟨by decide, by decide, by decide, by decide, by decide, by decide,
    C2_radii_length_guard node_live sockets_link_bad state0 verts_A edges_A [3]
      (by decide) (by decide) (by decide) (by decide) (by decide) (by decide)⟩

theorem C4_witness :
    WF state_B
    ∧ alist_find state_B.objects "Alpha" = some c1_obj
    ∧ ∃ s' obj',
        make_bmesh_geometry node_live state_B "Alpha" (verts_A, edges_A, []) = some s'
        ∧ s'.objects.length = state_B.objects.length
        ∧ alist_find s'.objects "Alpha" = some obj'
        ∧ obj'.data = "Alpha"
        ∧ (alist_keys s'.meshes).count "Alpha" = 1
        ∧ alist_find s'.meshes "Alpha" =
            some ⟨verts_A, edges_A,
              some (List.replicate verts_A.length
                (skin_default_radius, skin_default_radius))⟩ :=
  ⟨⟨by decide, by decide⟩, by decide,
    C4_object_reuse node_live state_B "Alpha" (verts_A, edges_A, []) c1_obj
      ⟨by decide, by decide⟩ (by decide)⟩

theorem C5_witness :
    alist_find state_B.objects "Alpha" = some c1_obj
    ∧ count_name c1_obj.modifiers "sv_skin" ≤ 1
    ∧ ∃ s' obj',
        make_bmesh_geometry node_live state_B "Alpha" (verts_A, edges_A, []) = some s'
        ∧ alist_find s'.objects "Alpha" = some obj'
        ∧ (node_live.live_updates = true →
            obj'.modifiers.filter (fun m => m.name == "sv_skin") = [⟨"sv_skin", "SKIN"⟩])
        ∧ (node_live.live_updates = false → obj'.modifiers = c1_obj.modifiers) :=
  ⟨by decide, by decide,
    C5_modifier_toggle node_live state_B "Alpha" (verts_A, edges_A, []) c1_obj
      (by decide) (by decide)⟩

theorem C6_witness :
    node_A = node_A ∧ sockets_A = sockets_A ∧ state0 = state0
    ∧ process node_A sockets_A state0 = process node_A sockets_A state0 :=
  ⟨rfl, rfl, rfl,
    C6_process_deterministic node_A node_A sockets_A sockets_A state0 state0 rfl rfl rfl⟩

theorem C7_witness :
    register [] = some ["SkinViewerNode"]
    ∧ unregister ["SkinViewerNode"] = some [] :=
  ⟨by decide, C7_register_roundtrip [] ["SkinViewerNode"] (by decide)⟩

theorem C8_witness :
    node_off.activate = false ∧ process node_off sockets_A state0 = some state0 :=
  ⟨by decide, C8_inactive_noop node_off sockets_A state0 (by decide)⟩

theorem C9_witness :
    node_live.activate = true
    ∧ node_live.live_updates = true
    ∧ sockets_A.radii_linked = false
    ∧ sockets_A.vertices.head? = some verts_A
    ∧ sockets_A.edges.head? = some edges_A
    ∧ ((List.replicate verts_A.length node_live.general_radius).length = verts_A.length
      ∧ ∃ s' obj',
          process node_live sockets_A state0 = some s'
          ∧ alist_find s'.objects node_live.basemesh_name = some obj'
          ∧ alist_find s'.meshes obj'.data =
              some ⟨verts_A, edges_A,
                some (List.replicate verts_A.length
                  (node_live.general_radius, node_live.general_radius))⟩) :=
  ⟨by decide, by decide, by decide, by decide, by decide,
    C9_unlinked_radii node_live sockets_A state0 verts_A edges_A
      (by decide) (by decide) (by decide) (by decide) (by decide)⟩
